import Mathlib

/-!
Shallow embedding of the StorageDB application (src/app.py).

The program is a CRUD web application over an SQLite database with two
tables, `boxes` and `items`, plus a QR-label side effect.  The embedding
models the database as explicit lists of rows (in insertion order, with
the AUTOINCREMENT counters carried explicitly), the written QR-label
files as a list of (path, encoded locator) pairs, HTML form data as
records of optional fields (`none` = field absent from the form), and
the two failure modes visible at this level: a missing required form
field (Python `KeyError` on `request.form[k]`, surfaced by Flask as a
400 Bad Request) and an SQLite CHECK-constraint violation
(`sqlite3.IntegrityError`).
-/

/-- A row of the `boxes` table (src/app.py, init_db).  `duration` is
nullable with a CHECK constraint; all other columns are plain TEXT
(`box_name` NOT NULL). -/
structure Box where
  id : Nat
  box_name : String
  description : String
  duration : Option String
  tags : String
deriving Repr, DecidableEq

/-- A row of the `items` table (src/app.py, init_db). -/
structure Item where
  id : Nat
  box_id : Nat
  item_name : String
  quantity : Int
  notes : String
deriving Repr, DecidableEq

/-- The persistent state: both tables in insertion order, the two
AUTOINCREMENT counters, and the QR label files written so far (file
path paired with the locator string encoded in the image). -/
structure St where
  boxes : List Box
  items : List Item
  nextBoxId : Nat
  nextItemId : Nat
  labels : List (String × String)
deriving Repr, DecidableEq

/-- Form data of the add/edit box routes: `request.form` fields, `none`
meaning the field is absent; `tags` models `request.form.getlist("tags")`,
which yields `[]` when no tag is submitted. -/
structure BoxForm where
  box_name : Option String
  description : Option String
  duration : Option String
  tags : List String
deriving Repr, DecidableEq

/-- Form data of the add/edit item routes. -/
structure ItemForm where
  item_name : Option String
  quantity : Option Int
  notes : Option String
deriving Repr, DecidableEq

/-- Request-level failures: `badRequest` is Flask's 400 from a `KeyError`
on a missing `request.form[...]` field; `constraintViolation` is
`sqlite3.IntegrityError` from the CHECK constraint on `duration`. -/
inductive AppError where
  | badRequest
  | constraintViolation
deriving Repr, DecidableEq

/-- Python's `sep.join(xs)`: members of `xs` concatenated with `sep`
between consecutive members, `""` on the empty list. -/
def pyJoin (sep : String) : List String → String
  | [] => ""
  | [x] => x
  | x :: y :: r => x ++ sep ++ pyJoin sep (y :: r)

/-- The CHECK constraint `duration IN ('long-term','short-term','seasonal')`
of the `boxes` schema.  SQL three-valued logic lets NULL pass. -/
def durationValid : Option String → Bool
  | none => true
  | some d => d == "long-term" || d == "short-term" || d == "seasonal"

/-- `INSERT INTO boxes (box_name, description, duration, tags) VALUES (?,?,?,?)`:
assigns the next id and appends the row, unless the CHECK constraint on
`duration` rejects the new row. -/
def insertBox (st : St) (box_name desc : String) (duration : Option String)
    (tags : String) : Except AppError (St × Nat) :=
  if durationValid duration then
    .ok ({ st with
            boxes := st.boxes ++ [⟨st.nextBoxId, box_name, desc, duration, tags⟩],
            nextBoxId := st.nextBoxId + 1 }, st.nextBoxId)
  else .error .constraintViolation

/-- `UPDATE boxes SET box_name=?, description=?, duration=?, tags=? WHERE id=?`:
rewrites every matching row; the CHECK constraint is evaluated only on
rows actually updated, so an update matching no row always succeeds. -/
def updateBox (st : St) (box_id : Nat) (box_name desc : String)
    (duration : Option String) (tags : String) : Except AppError St :=
  if st.boxes.any (fun b => b.id == box_id) && !(durationValid duration) then
    .error .constraintViolation
  else
    .ok { st with
          boxes := st.boxes.map (fun b =>
            if b.id == box_id then
              { b with box_name := box_name, description := desc,
                       duration := duration, tags := tags }
            else b) }

/-- `INSERT INTO items (box_id, item_name, quantity, notes) VALUES (?,?,?,?)`:
the schema default `quantity INTEGER DEFAULT 1` applies when no quantity
value is supplied to the insert. -/
def insertItem (st : St) (box_id : Nat) (item_name : String)
    (quantity : Option Int) (notes : String) : St × Nat :=
  ({ st with
      items := st.items ++ [⟨st.nextItemId, box_id, item_name, quantity.getD 1, notes⟩],
      nextItemId := st.nextItemId + 1 }, st.nextItemId)

/-- The locator string encoded into a box's QR label:
`f"http://{ip_address}:5000/box/{box_id}"` (src/app.py, generate_qr). -/
def locatorFor (box_id : Nat) (ip_address : String) : String :=
  "http://" ++ ip_address ++ ":5000/box/" ++ toString box_id

/-- The per-box label file path `os.path.join(QR_DIR, f"box_{box_id}.png")`. -/
def qrPath (box_id : Nat) : String :=
  "static/qr/box_" ++ toString box_id ++ ".png"

/-- `generate_qr`: writes the QR image for the box's locator to its
per-box path and returns the path. -/
def generate_qr (st : St) (box_id : Nat) (ip_address : String) : St × String :=
  ({ st with labels := st.labels ++ [(qrPath box_id, locatorFor box_id ip_address)] },
   qrPath box_id)

/-- Route `POST /add_box` (src/app.py, add_box): reads `box_name` as a
required field, defaults `description` to `""` and `duration` to
`"long-term"`, joins the submitted tag list with `", "`, inserts the
row, then generates the QR label using the requester's host. -/
def add_box (st : St) (form : BoxForm) (host : String) : Except AppError (St × Nat) :=
  match form.box_name with
  | none => .error .badRequest
  | some box_name =>
    let desc := form.description.getD ""
    let duration := form.duration.getD "long-term"
    let tags_str := pyJoin ", " form.tags
    match insertBox st box_name desc (some duration) tags_str with
    | .error e => .error e
    | .ok (st1, box_id) => .ok ((generate_qr st1 box_id host).1, box_id)

/-- Route `GET /box/<box_id>` (src/app.py, view_box): `fetchone` of the
box row (`none` when the id is absent, which is the NotFound outcome)
and `fetchall` of the items whose `box_id` matches. -/
def view_box (st : St) (box_id : Nat) : Option Box × List Item :=
  (st.boxes.find? (fun b => b.id == box_id),
   st.items.filter (fun i => i.box_id == box_id))

/-- Route `POST /box/<box_id>/add_item` (src/app.py, add_item):
`item_name` and `quantity` are both required form fields
(`int(request.form["quantity"])`); `notes` defaults to `""`. -/
def add_item (st : St) (box_id : Nat) (form : ItemForm) : Except AppError St :=
  match form.item_name with
  | none => .error .badRequest
  | some item_name =>
    match form.quantity with
    | none => .error .badRequest
    | some qty =>
      let notes := form.notes.getD ""
      .ok (insertItem st box_id item_name (some qty) notes).1

/-- Route `POST /box/<box_id>/delete` (src/app.py, delete_box): deletes
the box row and every item row whose `box_id` matches. -/
def delete_box (st : St) (box_id : Nat) : St :=
  { st with
    boxes := st.boxes.filter (fun b => b.id != box_id),
    items := st.items.filter (fun i => i.box_id != box_id) }

/-- Route `POST /box/<box_id>/edit` (src/app.py, edit_box): reads
`box_name` as a required field, defaults `description` and `duration`
to `""`, joins the submitted tag list with `","` (no space, unlike
add_box), and updates the row. -/
def edit_box (st : St) (box_id : Nat) (form : BoxForm) : Except AppError St :=
  match form.box_name with
  | none => .error .badRequest
  | some box_name =>
    let desc := form.description.getD ""
    let duration := form.duration.getD ""
    let tags_str := pyJoin "," form.tags
    updateBox st box_id box_name desc (some duration) tags_str

/-- Whether a character sequence contains the tag delimiter `", "`
(comma followed by space) as a contiguous subsequence. -/
def hasDelim : List Char → Bool
  | [] => false
  | [_] => false
  | c :: c2 :: rest => (c == ',' && c2 == ' ') || hasDelim (c2 :: rest)

/-- Split a character sequence at every occurrence of the delimiter
`", "`, scanning left to right. -/
def splitCh : List Char → List (List Char)
  | [] => [[]]
  | [c] => [[c]]
  | c :: c2 :: rest =>
    if c == ',' && c2 == ' ' then [] :: splitCh rest
    else
      match splitCh (c2 :: rest) with
      | [] => [[c]]
      | l :: ls => (c :: l) :: ls

/-- Decode a stored `tags` column back into the tag list by splitting at
the `", "` delimiter used by add_box. -/
def splitTags (s : String) : List String :=
  (splitCh s.data).map (fun l => String.mk l)

/-- Character-level version of `pyJoin ", "`. -/
def joinCh : List (List Char) → List Char
  | [] => []
  | [x] => x
  | x :: y :: r => x ++ ',' :: ' ' :: joinCh (y :: r)

theorem data_append (s t : String) : (s ++ t).data = s.data ++ t.data := rfl

theorem mk_data (s : String) : String.mk s.data = s := rfl

theorem pyJoin_comma_data : ∀ ts : List String,
    (pyJoin ", " ts).data = joinCh (ts.map String.data)
  | [] => rfl
  | [x] => rfl
  | x :: y :: r => by
    have ih := pyJoin_comma_data (y :: r)
    have hsep : (", " : String).data = [',', ' '] := rfl
    simp only [pyJoin, joinCh, data_append, ih, List.map_cons, hsep, List.append_assoc,
      List.cons_append, List.nil_append]

theorem splitCh_sep : ∀ l : List Char, hasDelim l = false →
    ∀ r, splitCh (l ++ ',' :: ' ' :: r) = l :: splitCh r
  | [], _, r => by simp [splitCh]
  | [c], _, r => by
    have hf : ((',' : Char) == ' ') = false := rfl
    simp [splitCh, hf]
  | c :: c2 :: l', h, r => by
    simp only [hasDelim, Bool.or_eq_false_iff] at h
    have ih := splitCh_sep (c2 :: l') h.2 r
    simp only [List.cons_append] at ih ⊢
    rw [splitCh, if_neg (by simp [h.1]), ih]

theorem splitCh_nodelim : ∀ l : List Char, hasDelim l = false → splitCh l = [l]
  | [], _ => rfl
  | [c], _ => rfl
  | c :: c2 :: l', h => by
    simp only [hasDelim, Bool.or_eq_false_iff] at h
    have ih := splitCh_nodelim (c2 :: l') h.2
    rw [splitCh, if_neg (by simp [h.1]), ih]

theorem splitCh_joinCh : ∀ ls : List (List Char), ls ≠ [] →
    (∀ x ∈ ls, hasDelim x = false) → splitCh (joinCh ls) = ls
  | [], h, _ => absurd rfl h
  | [x], _, h2 => by
    simpa [joinCh] using splitCh_nodelim x (h2 x (by simp))
  | x :: y :: r, _, h2 => by
    have ih := splitCh_joinCh (y :: r) (by simp)
      (fun z hz => h2 z (List.mem_cons_of_mem _ hz))
    simp only [joinCh]
    rw [splitCh_sep x (h2 x (by simp)), ih]

theorem splitTags_pyJoin (ts : List String) (h1 : ts ≠ [])
    (h2 : ∀ t ∈ ts, hasDelim t.data = false) :
    splitTags (pyJoin ", " ts) = ts := by
  unfold splitTags
  rw [pyJoin_comma_data,
    splitCh_joinCh (ts.map String.data) (by simpa using h1)
      (fun x hx => by
        obtain ⟨t, ht, rfl⟩ := List.mem_map.1 hx
        exact h2 t ht)]
  simp only [List.map_map]
  have hcomp : ((fun l => String.mk l) ∘ String.data) = id := funext fun s => rfl
  rw [hcomp, List.map_id]

theorem pyJoin_length : ∀ (sep : String) (ts : List String), ts ≠ [] →
    (pyJoin sep ts).length = (ts.map String.length).sum + sep.length * (ts.length - 1)
  | _, [], h => absurd rfl h
  | sep, [x], _ => by simp [pyJoin]
  | sep, x :: y :: r, _ => by
    have ih := pyJoin_length sep (y :: r) (by simp)
    simp only [pyJoin, String.length_append, ih, List.map_cons, List.sum_cons,
      List.length_cons]
    simp only [Nat.add_sub_cancel, Nat.mul_succ]
    omega

theorem pyJoin_comma_ne (ts : List String) (h : 2 ≤ ts.length) :
    pyJoin ", " ts ≠ pyJoin "," ts := by
  intro heq
  have hnil : ts ≠ [] := by intro hn; rw [hn] at h; simp at h
  have h1 := pyJoin_length ", " ts hnil
  have h2 := pyJoin_length "," ts hnil
  rw [heq] at h1
  have hl1 : (", " : String).length = 2 := rfl
  have hl2 : ("," : String).length = 1 := rfl
  rw [hl1] at h1
  rw [hl2] at h2
  omega

theorem find?_append_fresh (l : List Box) (b : Box) (box_id : Nat)
    (hb : b.id = box_id) (h : ∀ x ∈ l, x.id ≠ box_id) :
    (l ++ [b]).find? (fun x => x.id == box_id) = some b := by
  induction l with
  | nil => simp [List.find?, hb]
  | cons a l ih =>
    have ha : (a.id == box_id) = false := beq_eq_false_iff_ne.2 (h a (by simp))
    simp only [List.cons_append, List.find?, ha]
    exact ih fun x hx => h x (List.mem_cons_of_mem _ hx)

theorem map_noMatch (l : List Box) (box_id : Nat) (nm ds : String)
    (du : Option String) (tg : String) (h : ∀ x ∈ l, x.id ≠ box_id) :
    l.map (fun b => if b.id == box_id then
        { b with box_name := nm, description := ds, duration := du, tags := tg }
      else b) = l := by
  induction l with
  | nil => rfl
  | cons a l ih =>
    have ha : (a.id == box_id) = false := beq_eq_false_iff_ne.2 (h a (by simp))
    simp only [List.map_cons, ha, Bool.false_eq_true, if_false]
    rw [ih fun x hx => h x (List.mem_cons_of_mem _ hx)]

theorem any_noMatch (l : List Box) (box_id : Nat)
    (h : ∀ x ∈ l, x.id ≠ box_id) :
    l.any (fun b => b.id == box_id) = false := by
  induction l with
  | nil => rfl
  | cons a l ih =>
    have ha : (a.id == box_id) = false := beq_eq_false_iff_ne.2 (h a (by simp))
    simp only [List.any_cons, ha, Bool.false_or]
    exact ih fun x hx => h x (List.mem_cons_of_mem _ hx)

/-- Behavior of the add_box route when the required `box_name` field is
present and the effective duration passes the CHECK constraint: the new
row is appended with the tag list joined by `", "`, and the QR label for
the new id is written. -/
theorem add_box_eq (st : St) (form : BoxForm) (host name : String)
    (hn : form.box_name = some name)
    (hv : durationValid (some (form.duration.getD "long-term")) = true) :
    add_box st form host = .ok
      ({ st with
          boxes := st.boxes ++ [⟨st.nextBoxId, name, form.description.getD "",
            some (form.duration.getD "long-term"), pyJoin ", " form.tags⟩],
          nextBoxId := st.nextBoxId + 1,
          labels := st.labels ++ [(qrPath st.nextBoxId, locatorFor st.nextBoxId host)] },
        st.nextBoxId) := by
  unfold add_box
  rw [hn]
  simp [insertBox, hv, generate_qr]

/-- Behavior of the edit_box route when the required `box_name` field is
present and the effective duration passes the CHECK constraint: every
matching row is replaced, with the tag list joined by `","`. -/
theorem edit_box_eq (st : St) (box_id : Nat) (form : BoxForm) (name : String)
    (hn : form.box_name = some name)
    (hv : durationValid (some (form.duration.getD "")) = true) :
    edit_box st box_id form = .ok
      { st with
        boxes := st.boxes.map (fun b =>
          if b.id == box_id then
            { b with box_name := name, description := form.description.getD "",
                     duration := some (form.duration.getD ""),
                     tags := pyJoin "," form.tags }
          else b) } := by
  unfold edit_box
  rw [hn]
  simp [updateBox, hv]

/-- C8: The label locator is exactly the fixed-pattern URL
`http://{hostAddress}:5000/box/{boxId}` built from the caller-supplied
host and the fixed port 5000; generate_qr records precisely this
locator for the box's label file; and at box id 7 with host
192.168.1.20 the locator is exactly `http://192.168.1.20:5000/box/7`. -/
theorem C8_locator_format (st : St) (box_id : Nat) (host : String) :
    locatorFor box_id host = "http://" ++ host ++ ":5000/box/" ++ toString box_id ∧
    (generate_qr st box_id host).1.labels =
      st.labels ++ [(qrPath box_id, locatorFor box_id host)] ∧
    locatorFor 7 "192.168.1.20" = "http://192.168.1.20:5000/box/7" :=
  ⟨rfl, rfl, by decide⟩

/-- C4: Viewing a box id that matches no stored Box returns `none` for
the box (the NotFound outcome of `fetchone`). -/
theorem C4_view_absent_not_found (st : St) (box_id : Nat)
    (h : ∀ b ∈ st.boxes, b.id ≠ box_id) :
    (view_box st box_id).1 = none := by
  unfold view_box
  simp only
  rw [List.find?_eq_none]
  intro x hx
  simp [h x hx]

theorem C4_view_absent_not_found_witness :
    (∀ b ∈ (⟨[⟨1, "b", "", some "long-term", ""⟩], [], 2, 1, []⟩ : St).boxes,
      b.id ≠ 2) ∧
    (view_box ⟨[⟨1, "b", "", some "long-term", ""⟩], [], 2, 1, []⟩ 2).1 = none :=
  ⟨by decide, C4_view_absent_not_found _ 2 (by decide)⟩

/-- C3: After delete_box, viewing the deleted id finds no box (NotFound)
and no items, and no item row with that `box_id` remains in the items
table at all, so no listing can retrieve one. -/
theorem C3_delete_box_purges (st : St) (box_id : Nat) :
    view_box (delete_box st box_id) box_id = (none, []) ∧
    ∀ i ∈ (delete_box st box_id).items, i.box_id ≠ box_id := by
  refine ⟨?_, ?_⟩
  · unfold view_box delete_box
    simp only [Prod.mk.injEq]
    refine ⟨?_, ?_⟩
    · rw [List.find?_eq_none]
      intro x hx
      have hx2 := (List.mem_filter.1 hx).2
      simp only [bne_iff_ne, ne_eq] at hx2
      simp [hx2]
    · rw [List.filter_eq_nil_iff]
      intro i hi
      have hi2 := (List.mem_filter.1 hi).2
      simp only [bne_iff_ne, ne_eq] at hi2
      simp [hi2]
  · intro i hi
    simp only [delete_box] at hi
    have hi2 := (List.mem_filter.1 hi).2
    simpa [bne_iff_ne] using hi2

/-- C1: A box created via add_box with a name, description, duration
(one that the CHECK constraint accepts, as the box was in fact created)
and a tag list none of whose members contains the `", "` delimiter is
returned by an immediately following view_box with exactly the
submitted name, description, duration, and tags: the stored `tags`
column is the `", "`-join of the submitted list, from which the list is
recoverable without loss of members (exactly, when at least one tag was
submitted). -/
theorem C1_create_then_view_roundtrip (st : St) (form : BoxForm)
    (host name desc dur : String)
    (hn : form.box_name = some name) (hd : form.description = some desc)
    (hu : form.duration = some dur) (hv : durationValid (some dur) = true)
    (htags : ∀ t ∈ form.tags, hasDelim t.data = false)
    (hfresh : ∀ b ∈ st.boxes, b.id ≠ st.nextBoxId) :
    ∃ st2, add_box st form host = .ok (st2, st.nextBoxId) ∧
      (view_box st2 st.nextBoxId).1 =
        some ⟨st.nextBoxId, name, desc, some dur, pyJoin ", " form.tags⟩ ∧
      (form.tags ≠ [] → splitTags (pyJoin ", " form.tags) = form.tags) ∧
      (∀ t ∈ form.tags, t ∈ splitTags (pyJoin ", " form.tags)) := by
  have hv2 : durationValid (some (form.duration.getD "long-term")) = true := by
    rw [hu]; exact hv
  refine ⟨_, add_box_eq st form host name hn hv2, ?_, ?_, ?_⟩
  · unfold view_box
    simp only
    rw [find?_append_fresh st.boxes _ st.nextBoxId rfl hfresh]
    rw [hd, hu]
    simp [Option.getD_some]
  · exact fun hne => splitTags_pyJoin form.tags hne htags
  · intro t ht
    have hne : form.tags ≠ [] := by
      intro h0
      rw [h0] at ht
      exact absurd ht (List.not_mem_nil t)
    rw [splitTags_pyJoin form.tags hne htags]
    exact ht

theorem C1_create_then_view_roundtrip_witness :
    (durationValid (some "seasonal") = true) ∧
    (∀ t ∈ ["kitchen", "tools"], hasDelim (String.data t) = false) ∧
    (∃ st2, add_box ⟨[], [], 1, 1, []⟩
        ⟨some "Kitchen", some "pots", some "seasonal", ["kitchen", "tools"]⟩
        "192.168.1.20" = .ok (st2, 1) ∧
      (view_box st2 1).1 =
        some ⟨1, "Kitchen", "pots", some "seasonal", pyJoin ", " ["kitchen", "tools"]⟩ ∧
      (["kitchen", "tools"] ≠ ([] : List String) →
        splitTags (pyJoin ", " ["kitchen", "tools"]) = ["kitchen", "tools"]) ∧
      (∀ t ∈ ["kitchen", "tools"], t ∈ splitTags (pyJoin ", " ["kitchen", "tools"]))) :=
  ⟨by decide, by decide,
    C1_create_then_view_roundtrip ⟨[], [], 1, 1, []⟩
      ⟨some "Kitchen", some "pots", some "seasonal", ["kitchen", "tools"]⟩
      "192.168.1.20" "Kitchen" "pots" "seasonal" rfl rfl rfl (by decide)
      (by decide) (by decide)⟩

/-- C9: add_box with the `duration` form field omitted stores the box
with duration exactly `"long-term"` (the route's default), not an
absent/NULL duration. -/
theorem C9_omitted_duration_defaults (st : St) (form : BoxForm)
    (host name : String)
    (hn : form.box_name = some name) (hu : form.duration = none)
    (hfresh : ∀ b ∈ st.boxes, b.id ≠ st.nextBoxId) :
    ∃ st2, add_box st form host = .ok (st2, st.nextBoxId) ∧
      ∃ b, (view_box st2 st.nextBoxId).1 = some b ∧
        b.duration = some "long-term" := by
  have hv2 : durationValid (some (form.duration.getD "long-term")) = true := by
    rw [hu]; rfl
  refine ⟨_, add_box_eq st form host name hn hv2, ?_⟩
  refine ⟨⟨st.nextBoxId, name, form.description.getD "",
    some (form.duration.getD "long-term"), pyJoin ", " form.tags⟩, ?_, ?_⟩
  · unfold view_box
    simp only
    exact find?_append_fresh st.boxes _ st.nextBoxId rfl hfresh
  · simp only
    rw [hu]
    rfl

theorem C9_omitted_duration_defaults_witness :
    ((⟨some "Attic", none, none, []⟩ : BoxForm).duration = none) ∧
    (∃ st2, add_box ⟨[], [], 1, 1, []⟩ ⟨some "Attic", none, none, []⟩
        "localhost" = .ok (st2, 1) ∧
      ∃ b, (view_box st2 1).1 = some b ∧ b.duration = some "long-term") :=
  ⟨rfl,
    C9_omitted_duration_defaults ⟨[], [], 1, 1, []⟩ ⟨some "Attic", none, none, []⟩
      "localhost" "Attic" rfl rfl (by decide)⟩

/-- Editing a freshly appended box row replaces exactly that row,
re-encoding the submitted tags with the `","` join of edit_box. -/
theorem edit_box_append_eq (st : St) (b : Box) (form : BoxForm) (name : String)
    (hn : form.box_name = some name)
    (hv : durationValid (some (form.duration.getD "")) = true)
    (hfresh : ∀ x ∈ st.boxes, x.id ≠ b.id) :
    edit_box { st with boxes := st.boxes ++ [b] } b.id form = .ok
      { st with boxes := st.boxes ++
          [{ b with
              box_name := name,
              description := form.description.getD "",
              duration := some (form.duration.getD ""),
              tags := pyJoin "," form.tags }] } := by
  rw [edit_box_eq _ b.id form name hn hv]
  congr 1
  congr 1
  rw [List.map_append, map_noMatch st.boxes b.id _ _ _ _ hfresh]
  simp

/-- C2 counterexample: an add_box request whose `box_name` field is
present but equal to the empty string is not rejected: the row is
stored (with empty name) and the QR label file is written. -/
theorem C2_counterexample :
    add_box ⟨[], [], 1, 1, []⟩ ⟨some "", some "d", none, []⟩ "localhost" =
      .ok (⟨[⟨1, "", "d", some "long-term", ""⟩], [], 2, 1,
        [("static/qr/box_1.png", "http://localhost:5000/box/1")]⟩, 1) := rfl

/-- C2 (amended): only an absent `box_name` field is rejected (Flask 400
from the `KeyError`), storing nothing; a present-but-empty name is
accepted: the row is stored and the label file is written. -/
theorem C2_empty_name (st : St) (form : BoxForm) (host : String) :
    (form.box_name = none → add_box st form host = .error .badRequest) ∧
    (form.box_name = some "" →
      durationValid (some (form.duration.getD "long-term")) = true →
      ∃ st2, add_box st form host = .ok (st2, st.nextBoxId) ∧
        st2.boxes.length = st.boxes.length + 1 ∧
        st2.labels.length = st.labels.length + 1) := by
  constructor
  · intro hn
    unfold add_box
    rw [hn]
  · intro hn hv
    refine ⟨_, add_box_eq st form host "" hn hv, ?_, ?_⟩ <;> simp

theorem C2_empty_name_witness :
    (add_box ⟨[], [], 1, 1, []⟩ ⟨none, none, none, []⟩ "localhost" =
      .error .badRequest) ∧
    (∃ st2, add_box ⟨[], [], 1, 1, []⟩ ⟨some "", some "d", none, []⟩
        "localhost" = .ok (st2, 1) ∧
      st2.boxes.length = 0 + 1 ∧ st2.labels.length = 0 + 1) :=
  ⟨(C2_empty_name ⟨[], [], 1, 1, []⟩ ⟨none, none, none, []⟩ "localhost").1 rfl,
   (C2_empty_name ⟨[], [], 1, 1, []⟩ ⟨some "", some "d", none, []⟩ "localhost").2
     rfl (by decide)⟩

/-- C5 counterexample: an add_item request with `item_name` supplied but
the `quantity` field omitted fails (Flask 400 from
`int(request.form["quantity"])`); no item with quantity 1 is stored. -/
theorem C5_counterexample :
    add_item ⟨[⟨1, "b", "", some "long-term", ""⟩], [], 2, 1, []⟩ 1
      ⟨some "hammer", none, some "rusty"⟩ = .error .badRequest := rfl

/-- C5 (amended): the add_item route requires the `quantity` form field,
so a request omitting it is rejected with a missing-field error and
stores nothing; the default of exactly 1 lives at the store level: an
item INSERT that supplies no quantity stores quantity 1. -/
theorem C5_quantity_default (st : St) (box_id : Nat) (form : ItemForm)
    (item_name notes : String) :
    (form.quantity = none → add_item st box_id form = .error .badRequest) ∧
    (insertItem st box_id item_name none notes).1.items =
      st.items ++ [⟨st.nextItemId, box_id, item_name, 1, notes⟩] := by
  constructor
  · intro hq
    unfold add_item
    cases hfn : form.item_name with
    | none => rfl
    | some n => rw [hq]
  · rfl

theorem C5_quantity_default_witness :
    ((⟨some "hammer", none, some "rusty"⟩ : ItemForm).quantity = none) ∧
    (add_item ⟨[⟨1, "b", "", some "long-term", ""⟩], [], 2, 1, []⟩ 1
      ⟨some "hammer", none, some "rusty"⟩ = .error .badRequest) ∧
    (insertItem ⟨[⟨1, "b", "", some "long-term", ""⟩], [], 2, 1, []⟩ 1
      "hammer" none "rusty").1.items = [] ++ [⟨1, 1, "hammer", 1, "rusty"⟩] :=
  ⟨rfl,
   (C5_quantity_default ⟨[⟨1, "b", "", some "long-term", ""⟩], [], 2, 1, []⟩ 1
     ⟨some "hammer", none, some "rusty"⟩ "hammer" "rusty").1 rfl,
   (C5_quantity_default ⟨[⟨1, "b", "", some "long-term", ""⟩], [], 2, 1, []⟩ 1
     ⟨some "hammer", none, some "rusty"⟩ "hammer" "rusty").2⟩

/-- C6: edit_box on a box id matching no stored row (with the required
`box_name` field present, any values in the fields) succeeds, raising
neither NotFound nor any error, and returns the state completely
unchanged: no boxes or items are created, removed, or altered. -/
theorem C6_edit_missing_box_noop (st : St) (box_id : Nat) (form : BoxForm)
    (name : String) (hn : form.box_name = some name)
    (h : ∀ b ∈ st.boxes, b.id ≠ box_id) :
    edit_box st box_id form = .ok st := by
  unfold edit_box
  rw [hn]
  unfold updateBox
  rw [any_noMatch st.boxes box_id h]
  simp only [Bool.false_and, Bool.false_eq_true, if_false]
  rw [map_noMatch st.boxes box_id _ _ _ _ h]

theorem C6_edit_missing_box_noop_witness :
    (∀ b ∈ (⟨[⟨1, "b", "", some "long-term", ""⟩], [], 2, 1, []⟩ : St).boxes,
      b.id ≠ 5) ∧
    edit_box ⟨[⟨1, "b", "", some "long-term", ""⟩], [], 2, 1, []⟩ 5
      ⟨some "n", some "d", some "bogus", ["x"]⟩ =
      .ok ⟨[⟨1, "b", "", some "long-term", ""⟩], [], 2, 1, []⟩ :=
  ⟨by decide,
   C6_edit_missing_box_noop ⟨[⟨1, "b", "", some "long-term", ""⟩], [], 2, 1, []⟩ 5
     ⟨some "n", some "d", some "bogus", ["x"]⟩ "n" rfl (by decide)⟩

/-- C7: A box INSERT whose duration value is present (non-NULL) and not
one of the three enumerated values fails with the CHECK-constraint
violation and stores nothing; a box UPDATE with such a duration that
matches an existing row likewise fails with the constraint violation
and changes nothing. -/
theorem C7_invalid_duration_rejected (st : St) (box_id : Nat)
    (box_name desc tags d : String)
    (hd : durationValid (some d) = false) :
    insertBox st box_name desc (some d) tags = .error .constraintViolation ∧
    (st.boxes.any (fun b => b.id == box_id) = true →
      updateBox st box_id box_name desc (some d) tags = .error .constraintViolation) := by
  constructor
  · unfold insertBox
    rw [hd]
    rfl
  · intro ha
    unfold updateBox
    rw [ha, hd]
    rfl

theorem C7_invalid_duration_rejected_witness :
    (durationValid (some "forever") = false) ∧
    ((⟨[⟨1, "b", "", some "long-term", ""⟩], [], 2, 1, []⟩ : St).boxes.any
      (fun b => b.id == 1) = true) ∧
    (insertBox ⟨[⟨1, "b", "", some "long-term", ""⟩], [], 2, 1, []⟩ "n" "d"
      (some "forever") "" = .error .constraintViolation) ∧
    (updateBox ⟨[⟨1, "b", "", some "long-term", ""⟩], [], 2, 1, []⟩ 1 "n" "d"
      (some "forever") "" = .error .constraintViolation) :=
  ⟨by decide, by decide,
   (C7_invalid_duration_rejected ⟨[⟨1, "b", "", some "long-term", ""⟩], [], 2, 1, []⟩
     1 "n" "d" "" "forever" (by decide)).1,
   (C7_invalid_duration_rejected ⟨[⟨1, "b", "", some "long-term", ""⟩], [], 2, 1, []⟩
     1 "n" "d" "" "forever" (by decide)).2 (by decide)⟩

/-- C10: add_box joins the submitted tags with `", "` while edit_box
joins them with `","`; consequently, creating a box with a tag list of
at least two members and then editing it with the identical list
changes the stored tags string. -/
theorem C10_create_edit_tag_encoding_mismatch (st : St) (host : String)
    (f1 f2 : BoxForm) (n1 n2 : String) (ts : List String)
    (h1 : f1.box_name = some n1) (h2 : f2.box_name = some n2)
    (ht1 : f1.tags = ts) (ht2 : f2.tags = ts) (hlen : 2 ≤ ts.length)
    (hv1 : durationValid (some (f1.duration.getD "long-term")) = true)
    (hv2 : durationValid (some (f2.duration.getD "")) = true)
    (hfresh : ∀ b ∈ st.boxes, b.id ≠ st.nextBoxId) :
    ∃ st1 st2 b1 b2,
      add_box st f1 host = .ok (st1, st.nextBoxId) ∧
      (view_box st1 st.nextBoxId).1 = some b1 ∧
      edit_box st1 st.nextBoxId f2 = .ok st2 ∧
      (view_box st2 st.nextBoxId).1 = some b2 ∧
      b1.tags = pyJoin ", " ts ∧ b2.tags = pyJoin "," ts ∧
      b1.tags ≠ b2.tags := by
  refine ⟨_,
    { st with
        boxes := st.boxes ++ [⟨st.nextBoxId, n2, f2.description.getD "",
          some (f2.duration.getD ""), pyJoin "," f2.tags⟩],
        nextBoxId := st.nextBoxId + 1,
        labels := st.labels ++ [(qrPath st.nextBoxId, locatorFor st.nextBoxId host)] },
    ⟨st.nextBoxId, n1, f1.description.getD "",
      some (f1.duration.getD "long-term"), pyJoin ", " f1.tags⟩,
    ⟨st.nextBoxId, n2, f2.description.getD "",
      some (f2.duration.getD ""), pyJoin "," f2.tags⟩,
    add_box_eq st f1 host n1 h1 hv1, ?_, ?_, ?_, ?_, ?_, ?_⟩
  · unfold view_box
    simp only
    exact find?_append_fresh st.boxes _ st.nextBoxId rfl hfresh
  · exact edit_box_append_eq
      { st with
          nextBoxId := st.nextBoxId + 1,
          labels := st.labels ++ [(qrPath st.nextBoxId, locatorFor st.nextBoxId host)] }
      ⟨st.nextBoxId, n1, f1.description.getD "",
        some (f1.duration.getD "long-term"), pyJoin ", " f1.tags⟩
      f2 n2 h2 hv2 hfresh
  · unfold view_box
    simp only
    exact find?_append_fresh st.boxes _ st.nextBoxId rfl hfresh
  · exact congrArg (pyJoin ", ") ht1
  · exact congrArg (pyJoin ",") ht2
  · intro heq
    have heq2 : pyJoin ", " f1.tags = pyJoin "," f2.tags := heq
    rw [ht1, ht2] at heq2
    exact pyJoin_comma_ne ts hlen heq2

theorem C10_create_edit_tag_encoding_mismatch_witness :
    (2 ≤ (["kitchen", "tools"] : List String).length) ∧
    (∃ st1 st2 b1 b2,
      add_box ⟨[], [], 1, 1, []⟩
        ⟨some "Box", none, none, ["kitchen", "tools"]⟩ "h" = .ok (st1, 1) ∧
      (view_box st1 1).1 = some b1 ∧
      edit_box st1 1 ⟨some "Box", none, some "long-term", ["kitchen", "tools"]⟩ =
        .ok st2 ∧
      (view_box st2 1).1 = some b2 ∧
      b1.tags = pyJoin ", " ["kitchen", "tools"] ∧
      b2.tags = pyJoin "," ["kitchen", "tools"] ∧
      b1.tags ≠ b2.tags) :=
  ⟨by decide,
   C10_create_edit_tag_encoding_mismatch ⟨[], [], 1, 1, []⟩ "h"
     ⟨some "Box", none, none, ["kitchen", "tools"]⟩
     ⟨some "Box", none, some "long-term", ["kitchen", "tools"]⟩
     "Box" "Box" ["kitchen", "tools"] rfl rfl rfl rfl (by decide) (by decide)
     (by decide) (by decide)⟩
